import Mathlib

/-!
Verification development for the SMA-crossover demo repository:
* `Algorithm.Python/SimpleSmaCrossDemoAlgorithm.py` — the live signal path
  (crossover detection in `on_data`, fill recording in `on_order_event`);
* `tools/visualize_lean_charts.py` — the offline report path
  (`_extract_xy`, `_ms_to_utc_iso`, `_build_trades_table`, `main`).

Python values read from the backtest JSON file are modelled by the inductive
type `JVal`; numbers keep exact rational values (the source compares and
converts them with `>`, `int`, `float`, whose outcomes on the JSON-
representable inputs are the exact-arithmetic ones).
-/

/-- A Python value as produced by `json.load`: `None`, booleans, integers,
non-integral floats, strings, lists and dicts.  Integers and non-integral
numbers are kept apart because Python's `int(x)` truncates floats but keeps
ints, and `json.load` produces `int` or `float` objects accordingly. -/
inductive JVal where
  | jnull : JVal
  | jbool (b : Bool) : JVal
  | jint (n : Int) : JVal
  | jnum (q : ℚ) : JVal
  | jstr (s : String) : JVal
  | jarr (items : List JVal) : JVal
  | jobj (fields : List (String × JVal)) : JVal

/-- Modelled from Python truth testing (`bool(x)`): `None`, `False`, zero,
the empty string, the empty list and the empty dict are falsy. -/
def jTruthy : JVal → Bool
  | JVal.jnull => false
  | JVal.jbool b => b
  | JVal.jint n => n ≠ 0
  | JVal.jnum q => q ≠ 0
  | JVal.jstr s => s ≠ ""
  | JVal.jarr items => !items.isEmpty
  | JVal.jobj fields => !fields.isEmpty

/-- Modelled from the Python builtin `int(x)` as used by `_extract_xy`:
ints pass through, floats truncate toward zero, booleans become 0/1,
simple signed decimal strings parse, everything else raises (`none`).
(Python also strips surrounding whitespace and accepts underscores in
string arguments; those inputs do not occur in backtest JSON.) -/
def pyInt : JVal → Option Int
  | JVal.jint n => some n
  | JVal.jnum q => some (Int.tdiv q.num q.den)
  | JVal.jbool b => some (if b then 1 else 0)
  | JVal.jstr s => s.toInt?
  | _ => none

/-- Modelled from the Python builtin `float(x)` as used by `_extract_xy`:
numbers pass through exactly, booleans become 0/1, strings of the shape
`[-]digits[.digits]` parse, everything else raises (`none`).  (Python also
accepts forms such as `.5`, `3.` and `inf`; they do not occur in backtest
JSON.) -/
def pyFloat : JVal → Option ℚ
  | JVal.jint n => some (n : ℚ)
  | JVal.jnum q => some q
  | JVal.jbool b => some (if b then 1 else 0)
  | JVal.jstr s =>
      match s.splitOn "." with
      | [a] => a.toInt?.map (fun n => (n : ℚ))
      | [a, b] =>
          match a.toInt?, b.toNat? with
          | some n, some f =>
              let frac : ℚ := (f : ℚ) / ((10 : ℚ) ^ b.length)
              some (if s.startsWith "-" then (n : ℚ) - frac else (n : ℚ) + frac)
          | _, _ => none
      | _ => none
  | _ => none

/-- The shape test at the top of the `_extract_xy` loop:
`isinstance(item, list) and len(item) == 2` yields the two components,
otherwise `isinstance(item, dict) and "x" in item and "y" in item` yields
`item["x"], item["y"]`; any other shape is skipped (`continue`). -/
def getXY : JVal → Option (JVal × JVal)
  | JVal.jarr [x, y] => some (x, y)
  | JVal.jobj fields =>
      match List.lookup "x" fields, List.lookup "y" fields with
      | some x, some y => some (x, y)
      | _, _ => none
  | _ => none

/-- The `for item in values` loop of `_extract_xy`.  Note the faithful order
of effects of the `try` block: `xs_ms.append(int(x_s) * 1000)` runs before
`float(y)` is attempted, so a point whose timestamp coerces but whose value
does not leaves its timestamp in `xs_ms` when the exception is caught. -/
def extractXYLoop : List JVal → List Int × List ℚ
  | [] => ([], [])
  | item :: rest =>
      match getXY item with
      | none => extractXYLoop rest
      | some (x_s, y) =>
          match pyInt x_s with
          | none => extractXYLoop rest
          | some xi =>
              match pyFloat y with
              | none => (xi * 1000 :: (extractXYLoop rest).1, (extractXYLoop rest).2)
              | some yq => (xi * 1000 :: (extractXYLoop rest).1, yq :: (extractXYLoop rest).2)

/-- `_extract_xy(series)` from `tools/visualize_lean_charts.py`: reads
`series.get("values") or []` and runs the extraction loop.  A non-dict
argument or a truthy non-list `values` entry is outside the modelled domain
(Python would raise on the former; on the latter it iterates the object,
which for the string/dict cases still contributes no points). -/
def _extract_xy (series : JVal) : List Int × List ℚ :=
  let values : List JVal :=
    match series with
    | JVal.jobj fields =>
        match List.lookup "values" fields with
        | some (JVal.jarr items) => items
        | _ => []
    | _ => []
  extractXYLoop values

/-- Left-pads a natural number to two digits, as Python's `%H`/`%M`/`%S`/
`%m`/`%d` format directives do. -/
def pad2 (n : Nat) : String := if n < 10 then "0" ++ toString n else toString n

/-- Left-pads a natural number to four digits, as Python's `%Y` directive
does for the years at hand. -/
def pad4 (n : Nat) : String :=
  if n < 10 then "000" ++ toString n
  else if n < 100 then "00" ++ toString n
  else if n < 1000 then "0" ++ toString n
  else toString n

/-- `_ms_to_utc_iso(ms)` from `tools/visualize_lean_charts.py`:
`datetime.fromtimestamp(ms / 1000, tz=timezone.utc).strftime("%Y-%m-%d %H:%M:%S")`.
The library call is modelled by the standard civil-from-days conversion for
the proleptic Gregorian calendar; `ms / 1000` is exact for the inputs the
tool produces (they are `int(x) * 1000`), and fractional seconds would be
truncated by `%S` just as floor division truncates them here. -/
def _ms_to_utc_iso (ms : Int) : String :=
  let s : Int := Int.fdiv ms 1000
  let days : Int := Int.fdiv s 86400
  let sod : Nat := (s - 86400 * days).toNat
  let z : Int := days + 719468
  let era : Int := Int.fdiv z 146097
  let doe : Nat := (z - era * 146097).toNat
  let yoe : Nat := (doe - doe / 1460 + doe / 36524 - doe / 146096) / 365
  let doy : Nat := doe - (365 * yoe + yoe / 4 - yoe / 100)
  let mp : Nat := (5 * doy + 2) / 153
  let d : Nat := doy - (153 * mp + 2) / 5 + 1
  let m : Nat := if mp < 10 then mp + 3 else mp - 9
  let y : Int := (yoe : Int) + era * 400 + (if m ≤ 2 then 1 else 0)
  pad4 y.toNat ++ "-" ++ pad2 m ++ "-" ++ pad2 d ++ " " ++
    pad2 (sod / 3600) ++ ":" ++ pad2 (sod % 3600 / 60) ++ ":" ++ pad2 (sod % 60)

/-- A row of the reconciled trade table: `(time_utc, side, price)`, exactly
the tuples `_build_trades_table` accumulates in its `trades` list. -/
abbrev Trade := String × String × ℚ

/-- The comparison `lambda t: t[0]` passed to `trades.sort(key=...)`,
expressed as the boolean order on the formatted-timestamp component. -/
def tradeLe (a b : Trade) : Bool := decide (a.1 ≤ b.1)

/-- The trade list built by `_build_trades_table(buy_x, buy_y, sell_x, sell_y)`:
buy pairs are zipped into `BUY` rows, sell pairs into `SELL` rows, the two
lists are concatenated in that order, and the result is sorted in place by
the formatted timestamp string with Python's stable `list.sort` (modelled by
the stable `List.mergeSort`).  The HTML row rendering derived from this list
is omitted; the claims concern the list itself. -/
def _build_trades_table (buy_x : List Int) (buy_y : List ℚ)
    (sell_x : List Int) (sell_y : List ℚ) : List Trade :=
  let trades : List Trade :=
    (buy_x.zip buy_y).map (fun p => (_ms_to_utc_iso p.1, "BUY", p.2)) ++
    (sell_x.zip sell_y).map (fun p => (_ms_to_utc_iso p.1, "SELL", p.2))
  trades.mergeSort tradeLe

/-- The trade intent derived from one `on_data` step: `enter` models the
`self.set_holdings(self._symbol, 1.0)` call, `exit` the
`self.liquidate(self._symbol)` call, and `noSignal` a step that trades
nothing. -/
inductive SignalEvent where
  | enter : SignalEvent
  | exit : SignalEvent
  | noSignal : SignalEvent
  deriving DecidableEq

/-- The inputs one `on_data(self, data)` call observes, gathered from the
collaborators: `self.is_warming_up`, `self._fast.is_ready` /
`self._slow.is_ready`, whether `data` contains a non-`None` bar for the
symbol, and the two indicator readings `self._fast.current.value` /
`self._slow.current.value`. -/
structure OnDataInput where
  isWarmingUp : Bool
  fastReady : Bool
  slowReady : Bool
  hasBar : Bool
  fastValue : ℚ
  slowValue : ℚ

/-- `on_data` from `SimpleSmaCrossDemoAlgorithm.py`, as a state transition on
`self._was_fast_above : Option Bool` returning the updated state and the
trade intent of the step.  The guard order, the strict comparison
`fast > slow`, the initialize-without-trading branch and the unconditional
final store follow the source line by line (the `self.plot` calls do not
affect this state and are modelled on the recorder side). -/
def on_data (was_fast_above : Option Bool) (inp : OnDataInput) :
    Option Bool × SignalEvent :=
  if inp.isWarmingUp then (was_fast_above, SignalEvent.noSignal)
  else if !(inp.fastReady && inp.slowReady) then (was_fast_above, SignalEvent.noSignal)
  else if !inp.hasBar then (was_fast_above, SignalEvent.noSignal)
  else
    let is_fast_above : Bool := decide (inp.fastValue > inp.slowValue)
    match was_fast_above with
    | none => (some is_fast_above, SignalEvent.noSignal)
    | some was =>
        if is_fast_above && !was then (some is_fast_above, SignalEvent.enter)
        else if !is_fast_above && was then (some is_fast_above, SignalEvent.exit)
        else (some is_fast_above, SignalEvent.noSignal)

/-- Drives `on_data` over a list of step inputs, threading the returned
`_was_fast_above` state and collecting the emitted events in order. -/
def runOnData (was_fast_above : Option Bool) : List OnDataInput → List SignalEvent
  | [] => []
  | inp :: rest =>
      (on_data was_fast_above inp).2 ::
        runOnData (on_data was_fast_above inp).1 rest

/-- A post-initialization step whose `is_fast_above` evaluates to the given
boolean: both indicators ready, not warming up, bar present, and readings
`1 > 0` (for `true`) or `0 > 0` (for `false`). -/
def inputOfBool (b : Bool) : OnDataInput :=
  { isWarmingUp := false, fastReady := true, slowReady := true, hasBar := true,
    fastValue := if b then 1 else 0, slowValue := 0 }

/-- Counts the `false → true` transitions between adjacent entries of
`prev :: bs`. -/
def countRises : Bool → List Bool → Nat
  | _, [] => 0
  | prev, b :: bs => (if b && !prev then 1 else 0) + countRises b bs

/-- Counts the `true → false` transitions between adjacent entries of
`prev :: bs`. -/
def countFalls : Bool → List Bool → Nat
  | _, [] => 0
  | prev, b :: bs => (if !b && prev then 1 else 0) + countFalls b bs

/-- The order statuses of the hosting runtime that `on_order_event`
inspects; only `filled` passes the guard. -/
inductive OrderStatus where
  | new : OrderStatus
  | submitted : OrderStatus
  | partiallyFilled : OrderStatus
  | filled : OrderStatus
  | canceled : OrderStatus
  | invalid : OrderStatus
  deriving DecidableEq

/-- The fields of the runtime's `OrderEvent` that `on_order_event` reads. -/
structure OrderEvent where
  status : OrderStatus
  fill_quantity : ℚ
  fill_price : ℚ

/-- `on_order_event` from `SimpleSmaCrossDemoAlgorithm.py`, acting on the
`Buy` and `Sell` scatter series (the trade log): non-`FILLED` events are
ignored; a positive fill quantity appends the fill price to the `Buy`
series, a negative one to the `Sell` series, and a zero quantity appends
nothing.  `now` is the algorithm time at which `self.plot` records the
point. -/
def on_order_event (buySeries sellSeries : List (Int × ℚ)) (now : Int)
    (e : OrderEvent) : List (Int × ℚ) × List (Int × ℚ) :=
  if e.status ≠ OrderStatus.filled then (buySeries, sellSeries)
  else if e.fill_quantity > 0 then (buySeries ++ [(now, e.fill_price)], sellSeries)
  else if e.fill_quantity < 0 then (buySeries, sellSeries ++ [(now, e.fill_price)])
  else (buySeries, sellSeries)

/-- Modelled from Python's `d.get(key) or default` idiom used throughout
`main`: a missing key or a falsy stored value yields the default. -/
def pyGetOr (d : List (String × JVal)) (key : String) (dflt : JVal) : JVal :=
  match List.lookup key d with
  | some w => if jTruthy w then w else dflt
  | none => dflt

/-- The comparison underlying Python's `sorted` on strings. -/
def strLe (a b : String) : Bool := decide (a ≤ b)

/-- The outcome of one run of the CLI tool's `main`: `exitError code msg`
models `raise SystemExit(msg)` — Python prints the message and terminates
with status 1 when the argument is a string; `pyError` marks inputs outside
the tool's expected schema, on which the Python code would die with an
uncaught `AttributeError`/`TypeError`; `ok` carries the five extracted
series and the reconciled trade list that the HTML artifact embeds. -/
inductive MainResult where
  | exitError (code : Nat) (message : String) : MainResult
  | pyError : MainResult
  | ok (price fast slow buy sell : List Int × List ℚ)
      (trades : List Trade) : MainResult

/-- The `main` function of `tools/visualize_lean_charts.py` (named `main_model`
here because Lean reserves `main` for executables), modelled on its decision
inputs: whether the input file exists, the parsed JSON object, and the
requested chart name.  Missing file and missing chart reproduce the exact
`SystemExit` messages of the source, including the sorted, comma-joined
enumeration of available chart names; otherwise the five fixed-name series
are extracted and the trade table is built from the `Buy`/`Sell` series. -/
def main_model (inputExists : Bool) (inputPath : String)
    (result : List (String × JVal)) (chartName : String) : MainResult :=
  if !inputExists then
    MainResult.exitError 1 ("Input json not found: " ++ inputPath)
  else
    match pyGetOr result "charts" (JVal.jobj []) with
    | JVal.jobj chartsFields =>
        match List.lookup chartName chartsFields with
        | none =>
            MainResult.exitError 1
              ("Chart \x27" ++ chartName ++ "\x27 not found. Available: " ++
                String.intercalate ", " ((chartsFields.map Prod.fst).mergeSort strLe))
        | some chart =>
            match chart with
            | JVal.jobj chartFields =>
                match pyGetOr chartFields "series" (JVal.jobj []) with
                | JVal.jobj seriesFields =>
                    let price := _extract_xy (pyGetOr seriesFields "Price" (JVal.jobj []))
                    let fast := _extract_xy (pyGetOr seriesFields "FastSMA" (JVal.jobj []))
                    let slow := _extract_xy (pyGetOr seriesFields "SlowSMA" (JVal.jobj []))
                    let buy := _extract_xy (pyGetOr seriesFields "Buy" (JVal.jobj []))
                    let sell := _extract_xy (pyGetOr seriesFields "Sell" (JVal.jobj []))
                    MainResult.ok price fast slow buy sell
                      (_build_trades_table buy.1 buy.2 sell.1 sell.2)
                | _ => MainResult.pyError
            | _ => MainResult.pyError
    | _ => MainResult.pyError

/-- Claim C4: the first `on_data` step at which both indicators are ready
(while a bar is present and warm-up is over) stores
`fastAbove = isFastAbove`, marks the state initialized, and returns no
event, regardless of the relative values of fast and slow. -/
theorem crossover_first_ready_step_initializes_without_event
    (inp : OnDataInput) (hw : inp.isWarmingUp = false) (hf : inp.fastReady = true)
    (hs : inp.slowReady = true) (hb : inp.hasBar = true) :
    on_data none inp =
      (some (decide (inp.fastValue > inp.slowValue)), SignalEvent.noSignal) := by
  simp [on_data, hw, hf, hs, hb]

/-- Witness for C4 at a concrete first-ready input with `fast > slow`. -/
theorem crossover_first_ready_step_initializes_without_event_witness :
    on_data none
        { isWarmingUp := false, fastReady := true, slowReady := true,
          hasBar := true, fastValue := 3, slowValue := 2 } =
      (some true, SignalEvent.noSignal) := by
  rw [crossover_first_ready_step_initializes_without_event _ rfl rfl rfl rfl]
  decide

/-- Claim C5: a step on which the two indicators are not both ready returns
no event and leaves the stored state untouched; consequently a whole
sequence of such steps emits only `noSignal`. -/
theorem crossover_not_ready_is_frame
    (s : Option Bool) :
    (∀ inp : OnDataInput, (inp.fastReady && inp.slowReady) = false →
        on_data s inp = (s, SignalEvent.noSignal)) ∧
    (∀ inps : List OnDataInput,
        (∀ inp ∈ inps, (inp.fastReady && inp.slowReady) = false) →
        runOnData s inps = List.replicate inps.length SignalEvent.noSignal) := by
  have step : ∀ inp : OnDataInput, (inp.fastReady && inp.slowReady) = false →
      on_data s inp = (s, SignalEvent.noSignal) := by
    intro inp h
    cases hw : inp.isWarmingUp <;> simp [on_data, hw, h]
  refine ⟨step, ?_⟩
  intro inps hall
  induction inps with
  | nil => rfl
  | cons inp rest ih =>
      have h1 := step inp (hall inp (List.mem_cons_self _ _))
      simp [runOnData, h1, List.replicate_succ,
        ih (fun i hi => hall i (List.mem_cons_of_mem _ hi))]

/-- Witness for C5: a concrete not-ready step (slow indicator not ready)
leaves the stored `some true` state alone and a two-step not-ready run
emits two `noSignal`s. -/
theorem crossover_not_ready_is_frame_witness :
    on_data (some true)
        { isWarmingUp := false, fastReady := true, slowReady := false,
          hasBar := true, fastValue := 3, slowValue := 2 } =
      (some true, SignalEvent.noSignal) ∧
    runOnData (some true)
        [{ isWarmingUp := false, fastReady := false, slowReady := false,
           hasBar := true, fastValue := 3, slowValue := 2 },
         { isWarmingUp := false, fastReady := true, slowReady := false,
           hasBar := true, fastValue := 1, slowValue := 2 }] =
      List.replicate 2 SignalEvent.noSignal :=
  ⟨(crossover_not_ready_is_frame (some true)).1 _ rfl,
   (crossover_not_ready_is_frame (some true)).2 _ (by decide)⟩

/-- Counterexample to claim C1 as stated: at the post-initialization input
`fast = slow = 1` with stored state `fastAbove = true`, the equality tick
does emit a transition event (`exit`, the `liquidate` branch) and does
clear the stored above-state to `false`. -/
theorem crossover_equality_tick_counterexample :
    (on_data (some true)
        { isWarmingUp := false, fastReady := true, slowReady := true,
          hasBar := true, fastValue := 1, slowValue := 1 }).2 ≠
      SignalEvent.noSignal ∧
    (on_data (some true)
        { isWarmingUp := false, fastReady := true, slowReady := true,
          hasBar := true, fastValue := 1, slowValue := 1 }).1 ≠
      some true := by
  decide

/-- Claim C1 amended: an equality tick evaluates `isFastAbove` to `false`
(equality fails the strict-greater test).  With no stored state it
initializes to `false` without an event, with stored `fastAbove = false` it
emits nothing and keeps `false`, but with stored `fastAbove = true` it
emits `exit` and clears the above-state to `false`. -/
theorem crossover_equality_tick_behavior
    (inp : OnDataInput) (hw : inp.isWarmingUp = false) (hf : inp.fastReady = true)
    (hs : inp.slowReady = true) (hb : inp.hasBar = true)
    (heq : inp.fastValue = inp.slowValue) :
    on_data none inp = (some false, SignalEvent.noSignal) ∧
    on_data (some false) inp = (some false, SignalEvent.noSignal) ∧
    on_data (some true) inp = (some false, SignalEvent.exit) := by
  have hlt : decide (inp.fastValue > inp.slowValue) = false := by
    simp [heq]
  refine ⟨?_, ?_, ?_⟩ <;> simp [on_data, hw, hf, hs, hb, hlt]

/-- Witness for the amended C1 at the concrete equality input
`fast = slow = 5`. -/
theorem crossover_equality_tick_behavior_witness :
    on_data none
        { isWarmingUp := false, fastReady := true, slowReady := true,
          hasBar := true, fastValue := 5, slowValue := 5 } =
      (some false, SignalEvent.noSignal) ∧
    on_data (some true)
        { isWarmingUp := false, fastReady := true, slowReady := true,
          hasBar := true, fastValue := 5, slowValue := 5 } =
      (some false, SignalEvent.exit) := by
  have h := crossover_equality_tick_behavior
    { isWarmingUp := false, fastReady := true, slowReady := true,
      hasBar := true, fastValue := 5, slowValue := 5 } rfl rfl rfl rfl rfl
  exact ⟨h.1, h.2.2⟩

/-- One post-initialization `on_data` step on the boolean abstraction:
the state becomes `some b` and the event is determined by the
`(was, b)` transition. -/
theorem on_data_inputOfBool (was b : Bool) :
    on_data (some was) (inputOfBool b) =
      (some b,
        if b && !was then SignalEvent.enter
        else if !b && was then SignalEvent.exit
        else SignalEvent.noSignal) := by
  cases was <;> cases b <;> decide

/-- Every event of a run is one of the three constructors, so the three
counts add up to the run's length. -/
theorem count_signal_events (evs : List SignalEvent) :
    evs.count SignalEvent.enter + evs.count SignalEvent.exit +
      evs.count SignalEvent.noSignal = evs.length := by
  induction evs with
  | nil => rfl
  | cons e rest ih => cases e <;> simp [List.count_cons, ← ih] <;> omega

/-- A run visits exactly as many events as it is fed inputs. -/
theorem runOnData_length (s : Option Bool) (inps : List OnDataInput) :
    (runOnData s inps).length = inps.length := by
  induction inps generalizing s with
  | nil => rfl
  | cons inp rest ih => simp [runOnData, ih]

/-- `enter` events of a post-initialization run count the `false → true`
transitions of `b0 :: bs`. -/
theorem runOnData_count_enter (bs : List Bool) : ∀ b0 : Bool,
    (runOnData (some b0) (bs.map inputOfBool)).count SignalEvent.enter =
      countRises b0 bs := by
  induction bs with
  | nil => intro b0; rfl
  | cons b rest ih =>
      intro b0
      simp only [List.map_cons, runOnData, on_data_inputOfBool]
      cases b0 <;> cases b <;> simp [List.count_cons, countRises, ih]
      omega

/-- `exit` events of a post-initialization run count the `true → false`
transitions of `b0 :: bs`. -/
theorem runOnData_count_exit (bs : List Bool) : ∀ b0 : Bool,
    (runOnData (some b0) (bs.map inputOfBool)).count SignalEvent.exit =
      countFalls b0 bs := by
  induction bs with
  | nil => intro b0; rfl
  | cons b rest ih =>
      intro b0
      simp only [List.map_cons, runOnData, on_data_inputOfBool]
      cases b0 <;> cases b <;> simp [List.count_cons, countFalls, ih]
      omega

/-- Claim C3: over any post-initialization sequence of `isFastAbove`
booleans, the number of `enter` events equals the number of
`false → true` transitions, the number of `exit` events equals the number
of `true → false` transitions, every other step yields `noSignal`, and the
stored state is updated to `isFastAbove` on every step. -/
theorem crossover_transition_counts (b0 : Bool) (bs : List Bool) :
    (runOnData (some b0) (bs.map inputOfBool)).count SignalEvent.enter =
      countRises b0 bs ∧
    (runOnData (some b0) (bs.map inputOfBool)).count SignalEvent.exit =
      countFalls b0 bs ∧
    (runOnData (some b0) (bs.map inputOfBool)).count SignalEvent.noSignal =
      bs.length - countRises b0 bs - countFalls b0 bs ∧
    (∀ was b : Bool, (on_data (some was) (inputOfBool b)).1 = some b) := by
  have h1 := runOnData_count_enter bs b0
  have h2 := runOnData_count_exit bs b0
  have h3 := count_signal_events (runOnData (some b0) (bs.map inputOfBool))
  have h4 := runOnData_length (some b0) (bs.map inputOfBool)
  refine ⟨h1, h2, ?_, ?_⟩
  · rw [List.length_map] at h4
    omega
  · intro was b
    rw [on_data_inputOfBool]

/-- Claim C7: a `FILLED` event with zero signed quantity appends nothing to
either marker series; a positive quantity appends the fill price to the
`Buy` series, a negative one to the `Sell` series. -/
theorem recorder_zero_quantity_is_noop
    (buySeries sellSeries : List (Int × ℚ)) (now : Int) (e : OrderEvent) :
    (e.fill_quantity = 0 →
      on_order_event buySeries sellSeries now e = (buySeries, sellSeries)) ∧
    (e.status = OrderStatus.filled → 0 < e.fill_quantity →
      on_order_event buySeries sellSeries now e =
        (buySeries ++ [(now, e.fill_price)], sellSeries)) ∧
    (e.status = OrderStatus.filled → e.fill_quantity < 0 →
      on_order_event buySeries sellSeries now e =
        (buySeries, sellSeries ++ [(now, e.fill_price)])) := by
  refine ⟨?_, ?_, ?_⟩
  · intro h0
    by_cases hstat : e.status = OrderStatus.filled <;>
      simp [on_order_event, hstat, h0]
  · intro hstat hpos
    simp [on_order_event, hstat, hpos]
  · intro hstat hneg
    simp [on_order_event, hstat, hneg, not_lt_of_gt hneg, le_of_lt hneg]

/-- Witness for C7: concrete filled events with zero, positive and negative
quantities against a one-entry log. -/
theorem recorder_zero_quantity_is_noop_witness :
    on_order_event [(5, 10)] [] 7
        { status := OrderStatus.filled, fill_quantity := 0, fill_price := 99 } =
      ([(5, 10)], []) ∧
    on_order_event [(5, 10)] [] 7
        { status := OrderStatus.filled, fill_quantity := 2, fill_price := 99 } =
      ([(5, 10), (7, 99)], []) ∧
    on_order_event [(5, 10)] [] 7
        { status := OrderStatus.filled, fill_quantity := -2, fill_price := 99 } =
      ([(5, 10)], [(7, 99)]) :=
  ⟨(recorder_zero_quantity_is_noop [(5, 10)] [] 7 _).1 rfl,
   (recorder_zero_quantity_is_noop [(5, 10)] [] 7 _).2.1 rfl (by norm_num),
   (recorder_zero_quantity_is_noop [(5, 10)] [] 7 _).2.2 rfl (by norm_num)⟩

/-- Claim C2, evaluated at the failing input `[[1, null]]`: the timestamp
coercion `int(1)` succeeds and appends `1000` to the timestamp list before
`float(None)` raises, so the point is not skipped entirely — it leaves a
timestamp with no matching value, where the claim requires it to
contribute to neither output sequence. -/
theorem extractor_partial_point_not_skipped_entirely :
    _extract_xy
        (JVal.jobj [("values",
          JVal.jarr [JVal.jarr [JVal.jint 1, JVal.jnull]])]) =
      ([1000], []) := by
  rfl

/-- Reading the raw point list out of a `{"values": [...]}` series object
is the identity on the list. -/
theorem _extract_xy_values (items : List JVal) :
    _extract_xy (JVal.jobj [("values", JVal.jarr items)]) =
      extractXYLoop items := rfl

/-- The two accepted point shapes are read to the same `(x, y)` pair, so
the whole loop is shape-insensitive. -/
theorem extractXYLoop_shape_insensitive (pts : List (JVal × JVal)) :
    extractXYLoop (pts.map fun p => JVal.jarr [p.1, p.2]) =
    extractXYLoop (pts.map fun p => JVal.jobj [("x", p.1), ("y", p.2)]) := by
  induction pts with
  | nil => rfl
  | cons p rest ih =>
      have h1 : getXY (JVal.jarr [p.1, p.2]) = some (p.1, p.2) := rfl
      have h2 : getXY (JVal.jobj [("x", p.1), ("y", p.2)]) = some (p.1, p.2) := rfl
      simp only [List.map_cons, extractXYLoop, h1, h2, ih]

/-- Claim C8: the Series Extractor yields identical timestamp and value
sequences on the two-element-array form `[[t, v], ...]` and on the
equivalent object form `[{x: t, y: v}, ...]`. -/
theorem extractor_array_object_roundtrip (pts : List (JVal × JVal)) :
    _extract_xy (JVal.jobj [("values",
        JVal.jarr (pts.map fun p => JVal.jarr [p.1, p.2]))]) =
    _extract_xy (JVal.jobj [("values",
        JVal.jarr (pts.map fun p => JVal.jobj [("x", p.1), ("y", p.2)]))]) := by
  rw [_extract_xy_values, _extract_xy_values, extractXYLoop_shape_insensitive]

/-- Claim C10: the trade table pairs timestamps with prices positionally by
`zip`, so its row count is the sum of the two clamped lengths; excess
entries of an unequal-length pair are dropped silently. -/
theorem trades_table_length
    (buy_x : List Int) (buy_y : List ℚ) (sell_x : List Int) (sell_y : List ℚ) :
    (_build_trades_table buy_x buy_y sell_x sell_y).length =
      min buy_x.length buy_y.length + min sell_x.length sell_y.length := by
  simp [_build_trades_table]

/-- The order used by the trade sort is transitive. -/
theorem tradeLe_trans : ∀ a b c : Trade, tradeLe a b → tradeLe b c → tradeLe a c := by
  intro a b c hab hbc
  simp only [tradeLe, decide_eq_true_eq] at *
  exact le_trans hab hbc

/-- The order used by the trade sort is total. -/
theorem tradeLe_total : ∀ a b : Trade, tradeLe a b || tradeLe b a := by
  intro a b
  simp only [tradeLe, Bool.or_eq_true, decide_eq_true_eq]
  exact le_total a.1 b.1

/-- Stability of the trade sort, in filter form: among rows carrying one
and the same formatted timestamp, sorting preserves the original relative
order exactly. -/
theorem mergeSort_filter_key (l : List Trade) (t : String) :
    (l.mergeSort tradeLe).filter (fun r => r.1 == t) =
      l.filter (fun r => r.1 == t) := by
  have hsub : List.Sublist (l.filter (fun r => r.1 == t)) (l.mergeSort tradeLe) := by
    apply List.sublist_mergeSort tradeLe_trans tradeLe_total
    · apply List.pairwise_of_forall_mem_list
      intro a ha b hb
      have ha' := (List.mem_filter.mp ha).2
      have hb' := (List.mem_filter.mp hb).2
      simp only [beq_iff_eq] at ha' hb'
      simp [tradeLe, ha', hb']
    · exact List.filter_sublist l
  have hsub2 : List.Sublist (l.filter (fun r => r.1 == t))
      ((l.mergeSort tradeLe).filter (fun r => r.1 == t)) := by
    have h2 := hsub.filter (fun r => r.1 == t)
    simpa [List.filter_filter] using h2
  have hperm : List.Perm ((l.mergeSort tradeLe).filter (fun r => r.1 == t))
      (l.filter (fun r => r.1 == t)) :=
    (List.mergeSort_perm l tradeLe).filter _
  exact (hsub2.eq_of_length hperm.length_eq.symm).symm

/-- Claim C6: the reconciled trade table is sorted ascending by the
formatted UTC timestamp string, and the sort is stable over the
concatenation of buys followed by sells — at any fixed instant the table
lists exactly the `BUY` rows first, in input order, then the `SELL` rows. -/
theorem trades_table_sorted_and_stable
    (buy_x : List Int) (buy_y : List ℚ) (sell_x : List Int) (sell_y : List ℚ) :
    (_build_trades_table buy_x buy_y sell_x sell_y).Pairwise
      (fun a b : Trade => a.1 ≤ b.1) ∧
    (∀ t : String,
      (_build_trades_table buy_x buy_y sell_x sell_y).filter
          (fun r => r.1 == t) =
        ((buy_x.zip buy_y).map fun p => ((_ms_to_utc_iso p.1, "BUY", p.2) : Trade)).filter
            (fun r => r.1 == t) ++
        ((sell_x.zip sell_y).map fun p => ((_ms_to_utc_iso p.1, "SELL", p.2) : Trade)).filter
            (fun r => r.1 == t)) := by
  constructor
  · have h := List.sorted_mergeSort tradeLe_trans tradeLe_total
      ((buy_x.zip buy_y).map (fun p => ((_ms_to_utc_iso p.1, "BUY", p.2) : Trade)) ++
        (sell_x.zip sell_y).map (fun p => ((_ms_to_utc_iso p.1, "SELL", p.2) : Trade)))
    refine List.Pairwise.imp ?_ h
    intro a b hab
    simpa [tradeLe] using hab
  · intro t
    show (List.mergeSort _ tradeLe).filter _ = _
    rw [mergeSort_filter_key, List.filter_append]

/-- Claim C9: the CLI terminates with status 1 and a descriptive message
when the input file is missing; when the requested chart is absent it
terminates with status 1 and a message enumerating the sorted available
chart names; and when the input JSON has no `charts` key at all, the same
missing-chart error is raised listing zero available charts. -/
theorem cli_missing_resource_errors
    (inputPath : String) (result : List (String × JVal)) (chartName : String) :
    (main_model false inputPath result chartName =
      MainResult.exitError 1 ("Input json not found: " ++ inputPath)) ∧
    (∀ chartsFields : List (String × JVal),
        pyGetOr result "charts" (JVal.jobj []) = JVal.jobj chartsFields →
        List.lookup chartName chartsFields = none →
        main_model true inputPath result chartName =
          MainResult.exitError 1
            ("Chart \x27" ++ chartName ++ "\x27 not found. Available: " ++
              String.intercalate ", "
                ((chartsFields.map Prod.fst).mergeSort strLe))) ∧
    (List.lookup "charts" result = none →
        main_model true inputPath result chartName =
          MainResult.exitError 1
            ("Chart \x27" ++ chartName ++ "\x27 not found. Available: ")) := by
  refine ⟨rfl, ?_, ?_⟩
  · intro chartsFields hcf hlk
    simp [main_model, hcf, hlk]
  · intro h
    have hcf : pyGetOr result "charts" (JVal.jobj []) = JVal.jobj [] := by
      simp [pyGetOr, h]
    have hemp : String.intercalate ", " ([] : List String) = "" := rfl
    simp [main_model, hcf, List.lookup, hemp, String.append_empty]

/-- Witness for C9 at concrete inputs: a missing file, a two-chart JSON
asked for an absent chart (the message lists the two charts in sorted
order), and a JSON with no `charts` key (the message lists nothing). -/
theorem cli_missing_resource_errors_witness :
    (main_model false "r.json" [] "SPY" =
      MainResult.exitError 1 "Input json not found: r.json") ∧
    (main_model true "r.json"
        [("charts", JVal.jobj [("QQQ", JVal.jobj []), ("AAA", JVal.jobj [])])]
        "SPY" =
      MainResult.exitError 1
        ("Chart \x27SPY\x27 not found. Available: " ++
          String.intercalate ", "
            (([("QQQ", JVal.jobj []), ("AAA", JVal.jobj [])].map
                (Prod.fst (α := String) (β := JVal))).mergeSort strLe))) ∧
    (main_model true "r.json" [("statistics", JVal.jint 3)] "SPY" =
      MainResult.exitError 1 "Chart \x27SPY\x27 not found. Available: ") :=
  ⟨(cli_missing_resource_errors "r.json" [] "SPY").1,
   (cli_missing_resource_errors "r.json"
      [("charts", JVal.jobj [("QQQ", JVal.jobj []), ("AAA", JVal.jobj [])])]
      "SPY").2.1 _ (by rfl) (by rfl),
   (cli_missing_resource_errors "r.json" [("statistics", JVal.jint 3)] "SPY").2.2
      (by rfl)⟩
